import Mathlib

/-!
Verification development for the Deribit trading-system repository.

The C++ sources are shallowly embedded: each Lean definition mirrors one
C++ function, with venue replies and wall-clock instants passed in
explicitly as arguments (the code reads them from the network and the
clock).  Doubles that are only copied and compared are modelled as
rationals; the JSON dynamic values of nlohmann::json are modelled by the
`Json` inductive below, with field access that yields `Json.null` on a
missing key and `Option`-returning conversions standing for the
conversions that throw on a type mismatch (every such throw in the
embedded functions is caught by the surrounding try/catch, so a failed
conversion collapses to the catch branch of the mirrored function).
-/

namespace Deribit

/-- Dynamic JSON values (nlohmann::json). -/
inductive Json where
  | null
  | bool (b : Bool)
  | num (q : ℚ)
  | str (s : String)
  | arr (elems : List Json)
  | obj (fields : List (String × Json))

/-- Field access `j[key]` as used on response copies: a present key yields
its value, anything else yields null (a throwing access is followed in the
sources by a conversion that throws as well, so the two error paths agree). -/
def Json.get : Json → String → Json
  | .obj fields, key =>
    match fields.find? (fun f => f.1 = key) with
    | some f => f.2
    | none => .null
  | _, _ => .null

/-- Conversion to std::string; non-strings throw (modelled as `none`). -/
def Json.asStr? : Json → Option String
  | .str s => some s
  | _ => none

/-- Conversion to double; non-numbers throw (modelled as `none`). -/
def Json.asNum? : Json → Option ℚ
  | .num q => some q
  | _ => none

/-- Conversion to int; non-numbers throw (modelled as `none`). -/
def Json.asInt? : Json → Option ℤ
  | .num q => some ⌊q⌋
  | _ => none

/-- Range-for over a json value: arrays iterate their elements, null is an
empty range, objects iterate their values, primitives iterate themselves. -/
def Json.iterList : Json → List Json
  | .arr xs => xs
  | .null => []
  | .obj fields => fields.map (fun f => f.2)
  | v => [v]

/-- Assignment `j[key] = v` on an object (or on null, which first becomes
an empty object): replace the existing entry or add one. -/
def Json.setField : Json → String → Json → Json
  | .obj fields, key, v =>
    if fields.any (fun f => f.1 = key) then
      .obj (fields.map (fun f => if f.1 = key then (key, v) else f))
    else
      .obj (fields ++ [(key, v)])
  | _, key, v => .obj [(key, v)]

/-- ApiResponse (deribit_api_client.h): success flag, error message, data. -/
structure ApiResponse where
  success : Bool
  error_message : String := ""
  data : Json := .null

/-- OrderType (order_manager.h). -/
inductive OrderType where
  | MARKET
  | LIMIT
  | STOP_MARKET
  | STOP_LIMIT
deriving DecidableEq, Repr

/-- OrderDirection (order_manager.h). -/
inductive OrderDirection where
  | BUY
  | SELL
deriving DecidableEq, Repr

/-- TimeInForce (order_manager.h). -/
inductive TimeInForce where
  | GOOD_TIL_CANCELLED
  | FILL_OR_KILL
  | IMMEDIATE_OR_CANCEL
deriving DecidableEq, Repr

/-- Order (order_manager.h). -/
structure Order where
  order_id : String
  instrument_name : String
  type : OrderType
  direction : OrderDirection
  price : ℚ
  amount : ℚ
  time_in_force : TimeInForce
  status : String
  created_at : String
  last_updated_at : String
deriving DecidableEq, Repr

/-- OrderBook (order_manager.h): bids and asks are (price, size) lists. -/
structure OrderBook where
  instrument_name : String
  bids : List (ℚ × ℚ)
  asks : List (ℚ × ℚ)
  timestamp : String
deriving DecidableEq, Repr

/-- A string-keyed std::map. -/
def MapS (α : Type) : Type := String → Option α

/-- Map update, the std::map subscript assignment. -/
def MapS.insert (m : MapS α) (k : String) (v : α) : MapS α :=
  fun k' => if k' = k then some v else m k'

/-- Map erase, the std::map erase by key. -/
def MapS.erase (m : MapS α) (k : String) : MapS α :=
  fun k' => if k' = k then none else m k'

/-- The empty map. -/
def MapS.empty : MapS α := fun _ => none

/-- The open-orders cache of OrderManager (keyed by order_id). -/
def OpenOrders : Type := MapS Order

/-- The per-instrument book cache of OrderManager. -/
def Books : Type := MapS OrderBook

/-- OrderManager::order_type_to_string (order manager source, lines 1045-1058). -/
def order_type_to_string : OrderType → String
  | .MARKET => "market"
  | .LIMIT => "limit"
  | .STOP_MARKET => "stop_market"
  | .STOP_LIMIT => "stop_limit"

/-- OrderManager::order_direction_to_string (lines 1060-1069). -/
def order_direction_to_string : OrderDirection → String
  | .BUY => "buy"
  | .SELL => "sell"

/-- OrderManager::time_in_force_to_string (lines 1071-1082). -/
def time_in_force_to_string : TimeInForce → String
  | .GOOD_TIL_CANCELLED => "good_til_cancelled"
  | .FILL_OR_KILL => "fill_or_kill"
  | .IMMEDIATE_OR_CANCEL => "immediate_or_cancel"

/-- The if/else ladder `type_str == "limit" ... else if ...` used by
get_open_orders, get_order and handle_order_update; an unmatched string
leaves the default-initialized field, modelled as MARKET. -/
def order_type_of_string (type_str : String) : OrderType :=
  if type_str = "limit" then .LIMIT
  else if type_str = "market" then .MARKET
  else if type_str = "stop_market" then .STOP_MARKET
  else if type_str = "stop_limit" then .STOP_LIMIT
  else .MARKET

/-- The `direction_str == "buy"` if/else used throughout the order parsers. -/
def order_direction_of_string (direction_str : String) : OrderDirection :=
  if direction_str = "buy" then .BUY else .SELL

/-- The if/else ladder on time_in_force strings used by the order parsers;
an unmatched string leaves the default field, modelled as GOOD_TIL_CANCELLED. -/
def time_in_force_of_string (tif_str : String) : TimeInForce :=
  if tif_str = "good_til_cancelled" then .GOOD_TIL_CANCELLED
  else if tif_str = "fill_or_kill" then .FILL_OR_KILL
  else if tif_str = "immediate_or_cancel" then .IMMEDIATE_OR_CANCEL
  else .GOOD_TIL_CANCELLED

/-- The per-order field extraction shared verbatim by
OrderManager::get_open_orders (lines 816-856) and
OrderManager::get_order (lines 902-940): each field conversion can throw,
which aborts the whole construction (`none`). -/
def parse_order (j : Json) : Option Order := do
  let order_id ← (j.get "order_id").asStr?
  let instrument ← (j.get "instrument_name").asStr?
  let type_str ← (j.get "order_type").asStr?
  let direction_str ← (j.get "direction").asStr?
  let price ← (j.get "price").asNum?
  let amount ← (j.get "amount").asNum?
  let tif_str ← (j.get "time_in_force").asStr?
  let status ← (j.get "order_state").asStr?
  let created ← (j.get "creation_timestamp").asStr?
  let updated ← (j.get "last_update_timestamp").asStr?
  pure { order_id := order_id,
         instrument_name := instrument,
         type := order_type_of_string type_str,
         direction := order_direction_of_string direction_str,
         price := price,
         amount := amount,
         time_in_force := time_in_force_of_string tif_str,
         status := status,
         created_at := created,
         last_updated_at := updated }

/-- OrderManager::place_order (lines 439-528).  The venue reply to the
`private/buy` request is the `resp` argument.  Validation failures and
extraction failures are caught and return the empty id with the cache
untouched; a successful reply inserts the synthesized order (status
"open") and returns its id. -/
def place_order (s : OpenOrders) (instrument_name : String) (type : OrderType)
    (direction : OrderDirection) (amount price : ℚ) (time_in_force : TimeInForce)
    (resp : ApiResponse) : String × OpenOrders :=
  if instrument_name = "" then ("", s)
  else if amount ≤ 0 then ("", s)
  else if type = OrderType.LIMIT ∧ price ≤ 0 then ("", s)
  else if resp.success then
    match (((resp.data.get "result").get "order").get "order_id").asStr?,
          (((resp.data.get "result").get "order").get "creation_timestamp").asStr? with
    | some order_id, some created =>
      let order : Order :=
        { order_id := order_id,
          instrument_name := instrument_name,
          type := type,
          direction := direction,
          price := price,
          amount := amount,
          time_in_force := time_in_force,
          status := "open",
          created_at := created,
          last_updated_at := created }
      (order_id, s.insert order_id order)
    | _, _ => ("", s)
  else ("", s)

/-- OrderManager::cancel_order (lines 530-574): on a successful reply the
order is evicted from the cache. -/
def cancel_order (s : OpenOrders) (order_id : String) (resp : ApiResponse) :
    Bool × OpenOrders :=
  if order_id = "" then (false, s)
  else if resp.success then (true, s.erase order_id)
  else (false, s)

/-- OrderManager::modify_order (lines 576-645): on success the cached
order (when present) is patched with the provided fields and its
last_updated_at refreshed to `now_ms`. -/
def modify_order (s : OpenOrders) (order_id : String) (amount price : ℚ)
    (now_ms : String) (resp : ApiResponse) : Bool × OpenOrders :=
  if order_id = "" then (false, s)
  else if amount ≤ 0 ∧ price ≤ 0 then (false, s)
  else if resp.success then
    match s order_id with
    | some o =>
      let o' := { o with
                  amount := if amount > 0 then amount else o.amount,
                  price := if price > 0 then price else o.price,
                  last_updated_at := now_ms }
      (true, s.insert order_id o')
    | none => (true, s)
  else (false, s)

/-- The parsing loop of OrderManager::get_open_orders (lines 814-863):
each parsed order is appended to the result and written into the cache;
a throwing conversion aborts the loop, keeping the writes made so far. -/
def get_open_orders_go (s : OpenOrders) : List Json → List Order × OpenOrders
  | [] => ([], s)
  | j :: rest =>
    match parse_order j with
    | none => ([], s)
    | some o =>
      let (os, s') := get_open_orders_go (MapS.insert s o.order_id o) rest
      (o :: os, s')

/-- OrderManager::get_open_orders (lines 807-872).  `resp` is the venue
reply to `private/get_open_orders_by_currency`. -/
def get_open_orders (s : OpenOrders) (resp : ApiResponse) :
    List Order × OpenOrders :=
  if resp.success then get_open_orders_go s ((resp.data.get "result").iterList)
  else ([], s)

/-- OrderManager::get_order (lines 874-957): cache-first lookup; on miss
the venue is asked via `private/get_order_state`; the parsed order is
written back only when its status is "open". -/
def get_order (s : OpenOrders) (order_id : String) (resp : ApiResponse) :
    Option Order × OpenOrders :=
  if order_id = "" then (none, s)
  else
    match s order_id with
    | some o => (some o, s)
    | none =>
      if resp.success then
        match parse_order (resp.data.get "result") with
        | some o =>
          if o.status = "open" then (some o, s.insert order_id o)
          else (some o, s)
        | none => (none, s)
      else (none, s)

/-- The field extraction block of OrderManager::handle_order_update
(lines 970-1013); `order_id` and `status` were extracted before the
branch on the state and are assigned from the local variables. -/
def parse_order_update (j : Json) (order_id status : String) : Option Order := do
  let instrument ← (j.get "instrument_name").asStr?
  let type_str ← (j.get "order_type").asStr?
  let direction_str ← (j.get "direction").asStr?
  let price ← (j.get "price").asNum?
  let amount ← (j.get "amount").asNum?
  let tif_str ← (j.get "time_in_force").asStr?
  let created ← (j.get "creation_timestamp").asStr?
  let updated ← (j.get "last_update_timestamp").asStr?
  pure { order_id := order_id,
         instrument_name := instrument,
         type := order_type_of_string type_str,
         direction := order_direction_of_string direction_str,
         price := price,
         amount := amount,
         time_in_force := time_in_force_of_string tif_str,
         status := status,
         created_at := created,
         last_updated_at := updated }

/-- OrderManager::handle_order_update (lines 959-1021): a push with state
"open" or "untriggered" upserts the order; any other state evicts the
order id; a throwing conversion leaves the cache untouched. -/
def handle_order_update (s : OpenOrders) (update : Json) : OpenOrders :=
  match (update.get "order_id").asStr?, (update.get "order_state").asStr? with
  | some order_id, some status =>
    if status = "open" ∨ status = "untriggered" then
      match parse_order_update update order_id status with
      | some o => s.insert order_id o
      | none => s
    else s.erase order_id
  | _, _ => s

/-- The (price, size) pair extraction `bid[0], bid[1]` used on each entry
of a book reply (get_orderbook lines 692-703). -/
def Json.asPair? : Json → Option (ℚ × ℚ)
  | .arr (p :: sz :: _) => do
    let price ← p.asNum?
    let size ← sz.asNum?
    pure (price, size)
  | _ => none

/-- The bid/ask parsing loop of get_orderbook: returns the parsed prefix
and whether the whole list converted without a throw. -/
def parse_pairs : List Json → List (ℚ × ℚ) × Bool
  | [] => ([], true)
  | j :: rest =>
    match j.asPair? with
    | none => ([], false)
    | some p =>
      let (ps, ok) := parse_pairs rest
      (p :: ps, ok)

/-- OrderManager::get_orderbook (lines 647-719).  `resp` is the venue
reply to `public/get_order_book`, consumed only on a cache miss; the
third component counts the upstream calls performed.  On a miss with a
successful, fully parsed reply the book is stored in the cache; any
failure returns the book as built so far without storing it. -/
def get_orderbook (books : Books) (instrument_name : String) (depth : ℤ)
    (resp : ApiResponse) : OrderBook × Books × ℕ :=
  let base : OrderBook :=
    { instrument_name := instrument_name, bids := [], asks := [], timestamp := "" }
  if instrument_name = "" then (base, books, 0)
  else if depth ≤ 0 then (base, books, 0)
  else
    match books instrument_name with
    | some ob => (ob, books, 0)
    | none =>
      if resp.success then
        match ((resp.data.get "result").get "timestamp").asStr? with
        | none => (base, books, 1)
        | some ts =>
          let pb := parse_pairs ((resp.data.get "result").get "bids").iterList
          if pb.2 then
            let pa := parse_pairs ((resp.data.get "result").get "asks").iterList
            let ob : OrderBook :=
              { instrument_name := instrument_name, bids := pb.1, asks := pa.1,
                timestamp := ts }
            if pa.2 then (ob, books.insert instrument_name ob, 1)
            else (ob, books, 1)
          else
            ({ instrument_name := instrument_name, bids := pb.1, asks := [],
               timestamp := ts }, books, 1)
      else (base, books, 1)

/-! ### ApiClient (src/deribit_api_client.cpp) -/

/-- The credential and flag state of ApiClient relevant to the private
request path; instants are integer clock values. -/
structure ApiClientState where
  authenticated : Bool
  access_token : String
  refresh_token_value : String
  token_expiry : ℤ

/-- An upstream JSON-RPC call: the method and the params object sent. -/
structure UpstreamCall where
  method : String
  params : Json

/-- ApiClient::refresh_token (lines 440-471).  `resp` is the venue reply
to the `public/auth` refresh-grant call (that call is always performed
and is recorded).  The three result fields are assigned one after the
other, so an ill-typed later field keeps the earlier assignments; any
failure flips `authenticated` to false. -/
def refresh_token (st : ApiClientState) (now : ℤ) (resp : ApiResponse) :
    Bool × ApiClientState × List UpstreamCall :=
  let call : UpstreamCall :=
    { method := "public/auth",
      params := Json.obj [("grant_type", Json.str "refresh_token"),
                          ("refresh_token", Json.str st.refresh_token_value)] }
  if resp.success then
    match ((resp.data.get "result").get "access_token").asStr? with
    | none => (false, { st with authenticated := false }, [call])
    | some a =>
      let st1 := { st with access_token := a }
      match ((resp.data.get "result").get "refresh_token").asStr? with
      | none => (false, { st1 with authenticated := false }, [call])
      | some r =>
        let st2 := { st1 with refresh_token_value := r }
        match ((resp.data.get "result").get "expires_in").asInt? with
        | none => (false, { st2 with authenticated := false }, [call])
        | some e => (true, { st2 with token_expiry := now + e }, [call])
  else (false, { st with authenticated := false }, [call])

/-- ApiClient::private_request (lines 196-229).  `refresh_resp` is the
venue reply consumed if a token refresh is performed, `main_resp` the
reply of the final public_request.  The third component records the
upstream calls actually made, in order. -/
def private_request (st : ApiClientState) (now : ℤ) (method : String)
    (params : Json) (refresh_resp main_resp : ApiResponse) :
    ApiResponse × ApiClientState × List UpstreamCall :=
  if st.authenticated = false then
    ({ success := false, error_message := "Not authenticated" }, st, [])
  else if st.token_expiry ≤ now then
    match refresh_token st now refresh_resp with
    | (true, st', calls) =>
      let auth_params := params.setField "access_token" (Json.str st'.access_token)
      (main_resp, st', calls ++ [{ method := method, params := auth_params }])
    | (false, st', calls) =>
      ({ success := false, error_message := "Failed to refresh token" }, st', calls)
  else
    let auth_params := params.setField "access_token" (Json.str st.access_token)
    (main_resp, st, [{ method := method, params := auth_params }])

/-! ### WebSocketServer (src/websocket_server.cpp)

Connection handles are modelled as naturals.  The state carries the
connections set and the two subscription indices (channel to connection
set, connection to channel set); absent keys are `none`, matching the
std::map entries that subscribe creates and unsubscribe erases. -/

/-- The connection and subscription state of WebSocketServer. -/
structure WSState where
  connections : Finset ℕ
  channel_subscriptions : String → Option (Finset ℕ)
  connection_subscriptions : ℕ → Option (Finset String)

/-- The server state right after construction: no connections, both
subscription maps empty. -/
def wsInit : WSState :=
  { connections := ∅,
    channel_subscriptions := fun _ => none,
    connection_subscriptions := fun _ => none }

/-- WebSocketServer::subscribe_client (lines 291-301): `map[key].insert(x)`
on both indices; returns true unconditionally. -/
def subscribe_client (s : WSState) (hdl : ℕ) (channel : String) :
    Bool × WSState :=
  (true,
   { s with
     channel_subscriptions := fun k =>
       if k = channel then
         some (insert hdl ((s.channel_subscriptions channel).getD ∅))
       else s.channel_subscriptions k,
     connection_subscriptions := fun c =>
       if c = hdl then
         some (insert channel ((s.connection_subscriptions hdl).getD ∅))
       else s.connection_subscriptions c })

/-- WebSocketServer::unsubscribe_client (lines 303-329): erase the handle
from the channel entry and the channel from the connection entry, dropping
either entry when it becomes empty; returns true unconditionally. -/
def unsubscribe_client (s : WSState) (hdl : ℕ) (channel : String) :
    Bool × WSState :=
  (true,
   { s with
     channel_subscriptions := fun k =>
       if k = channel then
         match s.channel_subscriptions channel with
         | none => none
         | some set =>
           let set := set.erase hdl
           if set = ∅ then none else some set
       else s.channel_subscriptions k,
     connection_subscriptions := fun c =>
       if c = hdl then
         match s.connection_subscriptions hdl with
         | none => none
         | some chans =>
           let chans := chans.erase channel
           if chans = ∅ then none else some chans
       else s.connection_subscriptions c })

/-- WebSocketServer::unsubscribe_all (lines 331-356): for every channel in
the connection's entry, erase the handle from the forward index (dropping
emptied entries), then drop the connection's entry. -/
def unsubscribe_all (s : WSState) (hdl : ℕ) : WSState :=
  match s.connection_subscriptions hdl with
  | none => s
  | some channels =>
    { s with
      channel_subscriptions := fun k =>
        if k ∈ channels then
          match s.channel_subscriptions k with
          | none => s.channel_subscriptions k
          | some set =>
            let set := set.erase hdl
            if set = ∅ then none else some set
        else s.channel_subscriptions k,
      connection_subscriptions := fun c =>
        if c = hdl then none else s.connection_subscriptions c }

/-- WebSocketServer::on_open (lines 224-247): insert into the connections
set (the welcome frame and user callback do not touch the indices). -/
def on_open (s : WSState) (hdl : ℕ) : WSState :=
  { s with connections := insert hdl s.connections }

/-- WebSocketServer::on_close (lines 249-267): erase from the connections
set, then unsubscribe from everything. -/
def on_close (s : WSState) (hdl : ℕ) : WSState :=
  unsubscribe_all { s with connections := s.connections.erase hdl } hdl

/-- One state-mutating server event, with its inputs. -/
inductive WsOp where
  | onOpen (hdl : ℕ)
  | onClose (hdl : ℕ)
  | subscribe (hdl : ℕ) (channel : String)
  | unsubscribe (hdl : ℕ) (channel : String)
  | unsubscribeAll (hdl : ℕ)

/-- Apply one server event. -/
def wsStep (s : WSState) : WsOp → WSState
  | .onOpen hdl => on_open s hdl
  | .onClose hdl => on_close s hdl
  | .subscribe hdl channel => (subscribe_client s hdl channel).2
  | .unsubscribe hdl channel => (unsubscribe_client s hdl channel).2
  | .unsubscribeAll hdl => unsubscribe_all s hdl

/-- The server state reached from construction by a sequence of events. -/
def wsRun (ops : List WsOp) : WSState :=
  ops.foldl wsStep wsInit

/-- Frames the server sends to a peer (serialized as JSON in the source). -/
inductive Frame where
  | welcome
  | subscribed (channel : String)
  | unsubscribed (channel : String)
  | errorMsg (message : String)
  | orderbook (instrument : String) (book : OrderBook)
deriving DecidableEq

/-- WebSocketServer::broadcast_to_channel (lines 149-173): send the frame
to every member of the channel's entry; a missing entry is a no-op.  The
set is iterated in a fixed (sorted) order. -/
def broadcast_to_channel (s : WSState) (channel : String) (frame : Frame) :
    List (ℕ × Frame) :=
  match s.channel_subscriptions channel with
  | none => []
  | some conns => (conns.sort (· ≤ ·)).map (fun h => (h, frame))

/-- WebSocketServer::handle_orderbook_update (lines 188-222): serialize the
book and broadcast it to the channel `orderbook.` ++ instrument. -/
def ws_handle_orderbook_update (s : WSState) (instrument : String)
    (book : OrderBook) : List (ℕ × Frame) :=
  broadcast_to_channel s ("orderbook." ++ instrument) (Frame.orderbook instrument book)

/-- WebSocketServer::handle_subscribe_request (lines 382-415) for a
request whose channel field is `channel`: subscribe the peer (always
succeeds), send the subscribed reply, and when the channel starts with
"orderbook." read the book for the trailing instrument through the
OrderManager (cache `books`, venue reply `resp`) and broadcast it.
Returns the new server state, the new book cache, and the frames sent in
order. -/
def handle_subscribe_request (s : WSState) (books : Books) (hdl : ℕ)
    (channel : String) (resp : ApiResponse) :
    WSState × Books × List (ℕ × Frame) :=
  let s' := (subscribe_client s hdl channel).2
  let reply := [(hdl, Frame.subscribed channel)]
  if channel.take 10 = "orderbook." then
    let instrument := channel.drop 10
    let r := get_orderbook books instrument 10 resp
    (s', r.2.1, reply ++ ws_handle_orderbook_update s' instrument r.1)
  else
    (s', books, reply)

/-- WebSocketServer::handle_unsubscribe_request (lines 417-443) for a
request whose channel field is `channel`: unsubscribe (always succeeds)
and send the unsubscribed reply. -/
def handle_unsubscribe_request (s : WSState) (hdl : ℕ) (channel : String) :
    WSState × List (ℕ × Frame) :=
  match unsubscribe_client s hdl channel with
  | (true, s') => (s', [(hdl, Frame.unsubscribed channel)])
  | (false, s') =>
    (s', [(hdl, Frame.errorMsg ("Failed to unsubscribe from channel: " ++ channel))])

/-! ### PerformanceMonitor (src/performance_monitor.cpp)

Latency samples are nanosecond integers; the double arithmetic of the
percentile computation is carried out exactly in the rationals. -/

/-- LatencyMetric (performance_monitor.h): the aggregate fields and the
optional sample buffer. -/
structure LatencyMetric where
  name : String
  min_latency : ℤ
  max_latency : ℤ
  total_latency : ℤ
  count : ℕ
  samples : List ℤ
  store_samples : Bool
  max_samples : ℕ

/-- LatencyMetric::percentile_latency_ns (lines 73-98): an empty buffer
yields 0; otherwise sort a copy, take the (possibly fractional) index
percentile*(n-1)/100 and linearly interpolate between its floor and
ceiling neighbours. -/
def percentile_latency_ns (samples : List ℤ) (percentile : ℚ) : ℚ :=
  if samples = [] then 0
  else
    let sorted := samples.insertionSort (· ≤ ·)
    let index : ℚ := percentile * ((sorted.length : ℚ) - 1) / 100
    let lower : ℕ := (⌊index⌋).toNat
    let upper : ℕ := (⌈index⌉).toNat
    if lower = upper then ((sorted.getD lower 0 : ℤ) : ℚ)
    else
      let weight : ℚ := index - (lower : ℚ)
      ((sorted.getD lower 0 : ℤ) : ℚ) * (1 - weight) +
        ((sorted.getD upper 0 : ℤ) : ℚ) * weight

/-- A CSV cell of the metrics export: either the literal N/A or a number. -/
inductive CsvCell where
  | na
  | num (q : ℚ)
deriving DecidableEq

/-- The three percentile columns written per row by
PerformanceMonitor::export_to_csv (lines 189-196): numbers when the
sample buffer is non-empty, N/A cells otherwise. -/
def csv_percentile_cells (m : LatencyMetric) : List CsvCell :=
  if m.samples ≠ [] then
    [CsvCell.num (percentile_latency_ns m.samples 50),
     CsvCell.num (percentile_latency_ns m.samples 90),
     CsvCell.num (percentile_latency_ns m.samples 99)]
  else
    [CsvCell.na, CsvCell.na, CsvCell.na]

/-! ### Operation sequences over the open-orders cache -/

/-- One OrderManager operation touching the open-orders cache, with its
inputs and the venue reply it consumes. -/
inductive OmOp where
  | place (instrument : String) (type : OrderType) (dir : OrderDirection)
      (amount price : ℚ) (tif : TimeInForce) (resp : ApiResponse)
  | cancel (order_id : String) (resp : ApiResponse)
  | modify (order_id : String) (amount price : ℚ) (now_ms : String)
      (resp : ApiResponse)
  | getOpen (resp : ApiResponse)
  | getOrder (order_id : String) (resp : ApiResponse)
  | update (push : Json)

/-- Apply one OrderManager operation to the open-orders cache. -/
def omStep (s : OpenOrders) : OmOp → OpenOrders
  | .place instrument ty dir amount price tif resp =>
    (place_order s instrument ty dir amount price tif resp).2
  | .cancel order_id resp => (cancel_order s order_id resp).2
  | .modify order_id amount price now_ms resp =>
    (modify_order s order_id amount price now_ms resp).2
  | .getOpen resp => (get_open_orders s resp).2
  | .getOrder order_id resp => (get_order s order_id resp).2
  | .update push => handle_order_update s push

/-- The open-orders cache reached from the empty cache by a sequence of
OrderManager operations. -/
def omRun (ops : List OmOp) : OpenOrders :=
  ops.foldl omStep MapS.empty

/-- The open-orders cache invariant of the claim: every cached order has
status "open" or "untriggered". -/
def open_orders_invariant (s : OpenOrders) : Prop :=
  ∀ id o, s id = some o → o.status = "open" ∨ o.status = "untriggered"

/-- Whether a json order carried by a get_open_orders reply parses to an
order whose state is open or untriggered (an unparseable one is harmless:
it aborts the write-back loop). -/
def order_state_ok (j : Json) : Bool :=
  match parse_order j with
  | some o => o.status == "open" || o.status == "untriggered"
  | none => true

/-- An operation is benign for the cache invariant when any
get_open_orders reply it consumes only carries open or untriggered
orders (the venue promises exactly that for
private/get_open_orders_by_currency). -/
def omOpOk : OmOp → Bool
  | .getOpen resp =>
    !resp.success || ((resp.data.get "result").iterList.all order_state_ok)
  | _ => true

/-! ### Subscription-index invariants -/

/-- Membership of `a` in an optional entry of a subscription index. -/
def omem (o : Option (Finset α)) (a : α) : Prop :=
  ∃ t, o = some t ∧ a ∈ t

/-- Membership `omem` through `Option.getD ∅`. -/
theorem omem_iff_mem_getD {o : Option (Finset α)} {a : α} :
    omem o a ↔ a ∈ o.getD ∅ := by
  cases o <;> simp [omem]

/-- Double-index consistency at the level of memberships: a connection is
listed under a channel in the forward index iff the channel is listed
under the connection in the inverse index. -/
def Consistent (s : WSState) : Prop :=
  ∀ k h, omem (s.channel_subscriptions k) h ↔ omem (s.connection_subscriptions h) k

/-- Neither index ever holds an entry that is an empty set (subscribe
creates non-empty entries and both unsubscribe paths drop emptied ones). -/
def NoEmptySets (s : WSState) : Prop :=
  (∀ k, s.channel_subscriptions k ≠ some ∅) ∧
  (∀ h, s.connection_subscriptions h ≠ some ∅)

/-- The inductive state invariant of the subscription indices. -/
def GoodState (s : WSState) : Prop :=
  Consistent s ∧ NoEmptySets s

theorem goodState_init : GoodState wsInit := by
  refine ⟨fun k h => ?_, fun k => by simp [wsInit], fun h => by simp [wsInit]⟩
  simp [wsInit, omem]

/-- Consistency restated through `Option.getD ∅`. -/
def ConsistentD (s : WSState) : Prop :=
  ∀ k h, h ∈ (s.channel_subscriptions k).getD ∅ ↔
    k ∈ (s.connection_subscriptions h).getD ∅

theorem consistent_iff_consistentD (s : WSState) :
    Consistent s ↔ ConsistentD s := by
  unfold Consistent ConsistentD
  exact forall_congr' fun k => forall_congr' fun h => by
    rw [omem_iff_mem_getD, omem_iff_mem_getD]

theorem sub_forward_getD (s : WSState) (hdl : ℕ) (channel k : String) :
    (((subscribe_client s hdl channel).2.channel_subscriptions k).getD ∅) =
      if k = channel then insert hdl ((s.channel_subscriptions channel).getD ∅)
      else (s.channel_subscriptions k).getD ∅ := by
  simp only [subscribe_client]
  split <;> simp

theorem sub_inverse_getD (s : WSState) (hdl : ℕ) (channel : String) (h : ℕ) :
    (((subscribe_client s hdl channel).2.connection_subscriptions h).getD ∅) =
      if h = hdl then insert channel ((s.connection_subscriptions hdl).getD ∅)
      else (s.connection_subscriptions h).getD ∅ := by
  simp only [subscribe_client]
  split <;> simp

theorem unsub_forward_getD (s : WSState) (hdl : ℕ) (channel k : String) :
    (((unsubscribe_client s hdl channel).2.channel_subscriptions k).getD ∅) =
      if k = channel then ((s.channel_subscriptions channel).getD ∅).erase hdl
      else (s.channel_subscriptions k).getD ∅ := by
  simp only [unsubscribe_client]
  split
  · cases hc : s.channel_subscriptions channel with
    | none => simp
    | some set =>
      simp only [Option.getD_some]
      split <;> simp_all
  · rfl

theorem unsub_inverse_getD (s : WSState) (hdl : ℕ) (channel : String) (h : ℕ) :
    (((unsubscribe_client s hdl channel).2.connection_subscriptions h).getD ∅) =
      if h = hdl then ((s.connection_subscriptions hdl).getD ∅).erase channel
      else (s.connection_subscriptions h).getD ∅ := by
  simp only [unsubscribe_client]
  split
  · cases hc : s.connection_subscriptions hdl with
    | none => simp
    | some chans =>
      simp only [Option.getD_some]
      split <;> simp_all
  · rfl

theorem unsubAll_forward_getD (s : WSState) (hdl : ℕ) (k : String) :
    (((unsubscribe_all s hdl).channel_subscriptions k).getD ∅) =
      if k ∈ (s.connection_subscriptions hdl).getD ∅ then
        ((s.channel_subscriptions k).getD ∅).erase hdl
      else (s.channel_subscriptions k).getD ∅ := by
  unfold unsubscribe_all
  cases hg : s.connection_subscriptions hdl with
  | none => simp
  | some channels =>
    simp only [Option.getD_some]
    split
    · cases hc : s.channel_subscriptions k with
      | none => simp
      | some set =>
        simp only [Option.getD_some]
        split <;> simp_all
    · rfl

theorem unsubAll_inverse_getD (s : WSState) (hdl c : ℕ) :
    (((unsubscribe_all s hdl).connection_subscriptions c).getD ∅) =
      if c = hdl then ∅ else (s.connection_subscriptions c).getD ∅ := by
  cases hg : s.connection_subscriptions hdl with
  | none =>
    simp only [unsubscribe_all, hg]
    split
    · next hc => subst hc; simp [hg]
    · rfl
  | some channels =>
    simp only [unsubscribe_all, hg]
    split <;> simp

theorem goodState_subscribe (s : WSState) (hdl : ℕ) (channel : String)
    (hs : GoodState s) : GoodState (subscribe_client s hdl channel).2 := by
  obtain ⟨hC, hF, hG⟩ := hs
  rw [consistent_iff_consistentD] at hC
  refine ⟨(consistent_iff_consistentD _).2 fun k h => ?_, fun k => ?_, fun h => ?_⟩
  · rw [sub_forward_getD, sub_inverse_getD]
    by_cases hk : k = channel <;> by_cases hh : h = hdl <;>
      simp [hk, hh, Finset.mem_insert, hC k h, hC channel h, hC k hdl]
  · simp only [subscribe_client]
    split
    · exact fun hcon => Finset.insert_ne_empty _ _ (Option.some.injEq _ _ ▸ hcon)
    · exact hF k
  · simp only [subscribe_client]
    split
    · exact fun hcon => Finset.insert_ne_empty _ _ (Option.some.injEq _ _ ▸ hcon)
    · exact hG h

theorem goodState_unsubscribe (s : WSState) (hdl : ℕ) (channel : String)
    (hs : GoodState s) : GoodState (unsubscribe_client s hdl channel).2 := by
  obtain ⟨hC, hF, hG⟩ := hs
  rw [consistent_iff_consistentD] at hC
  refine ⟨(consistent_iff_consistentD _).2 fun k h => ?_, fun k => ?_, fun h => ?_⟩
  · rw [unsub_forward_getD, unsub_inverse_getD]
    by_cases hk : k = channel <;> by_cases hh : h = hdl <;>
      simp [hk, hh, Finset.mem_erase, hC k h, hC channel h, hC k hdl] <;> tauto
  · simp only [unsubscribe_client]
    split
    · cases s.channel_subscriptions channel with
      | none => simp
      | some set =>
        simp only
        split <;> simp_all
    · exact hF k
  · simp only [unsubscribe_client]
    split
    · cases s.connection_subscriptions hdl with
      | none => simp
      | some chans =>
        simp only
        split <;> simp_all
    · exact hG h

theorem goodState_unsubscribeAll (s : WSState) (hdl : ℕ)
    (hs : GoodState s) : GoodState (unsubscribe_all s hdl) := by
  obtain ⟨hC, hF, hG⟩ := hs
  rw [consistent_iff_consistentD] at hC
  refine ⟨(consistent_iff_consistentD _).2 fun k h => ?_, fun k => ?_, fun h => ?_⟩
  · rw [unsubAll_forward_getD, unsubAll_inverse_getD]
    by_cases hh : h = hdl
    · subst hh
      by_cases hk : k ∈ (s.connection_subscriptions h).getD ∅ <;>
        simp [hk, Finset.mem_erase, hC k h]
    · by_cases hk : k ∈ (s.connection_subscriptions hdl).getD ∅ <;>
        simp [hk, hh, Finset.mem_erase, hC k h]
  · unfold unsubscribe_all
    cases hg : s.connection_subscriptions hdl with
    | none => exact hF k
    | some channels =>
      simp only
      split
      · cases s.channel_subscriptions k with
        | none => simp
        | some set =>
          simp only
          split <;> simp_all
      · exact hF k
  · unfold unsubscribe_all
    cases hg : s.connection_subscriptions hdl with
    | none => exact hG h
    | some channels =>
      simp only
      split <;> simp_all [hG h]

theorem goodState_step (s : WSState) (op : WsOp) (hs : GoodState s) :
    GoodState (wsStep s op) := by
  cases op with
  | onOpen hdl => exact hs
  | onClose hdl =>
    exact goodState_unsubscribeAll _ hdl hs
  | subscribe hdl channel => exact goodState_subscribe s hdl channel hs
  | unsubscribe hdl channel => exact goodState_unsubscribe s hdl channel hs
  | unsubscribeAll hdl => exact goodState_unsubscribeAll s hdl hs

theorem goodState_foldl (ops : List WsOp) (s : WSState) (hs : GoodState s) :
    GoodState (ops.foldl wsStep s) := by
  induction ops generalizing s with
  | nil => exact hs
  | cons op rest ih => exact ih _ (goodState_step s op hs)

theorem goodState_run (ops : List WsOp) : GoodState (wsRun ops) :=
  goodState_foldl ops wsInit goodState_init

/-! ### Helper lemmas for the open-orders invariant -/

theorem open_orders_invariant_insert {s : OpenOrders} {k : String} {o : Order}
    (hs : open_orders_invariant s)
    (ho : o.status = "open" ∨ o.status = "untriggered") :
    open_orders_invariant (s.insert k o) := by
  intro id o' h
  by_cases hid : id = k
  · simp [MapS.insert, hid] at h
    exact h ▸ ho
  · exact hs id o' (by simpa [MapS.insert, hid] using h)

theorem open_orders_invariant_erase {s : OpenOrders} {k : String}
    (hs : open_orders_invariant s) : open_orders_invariant (s.erase k) := by
  intro id o h
  by_cases hid : id = k
  · simp [MapS.erase, hid] at h
  · exact hs id o (by simpa [MapS.erase, hid] using h)

theorem option_bind_inv {α β : Type} {x : Option α} {f : α → Option β} {b : β}
    (h : (x >>= f) = some b) : ∃ a, x = some a ∧ f a = some b := by
  cases x with
  | none => cases h
  | some a => exact ⟨a, rfl, h⟩

theorem parse_order_update_status {j : Json} {id st : String} {o : Order}
    (h : parse_order_update j id st = some o) : o.status = st := by
  unfold parse_order_update at h
  obtain ⟨i, -, h⟩ := option_bind_inv h
  obtain ⟨ts, -, h⟩ := option_bind_inv h
  obtain ⟨ds, -, h⟩ := option_bind_inv h
  obtain ⟨p, -, h⟩ := option_bind_inv h
  obtain ⟨a, -, h⟩ := option_bind_inv h
  obtain ⟨tf, -, h⟩ := option_bind_inv h
  obtain ⟨c, -, h⟩ := option_bind_inv h
  obtain ⟨u, -, h⟩ := option_bind_inv h
  cases h
  rfl

theorem open_orders_invariant_getOpen_go {s : OpenOrders} {js : List Json}
    (hs : open_orders_invariant s)
    (hok : ∀ j ∈ js, order_state_ok j = true) :
    open_orders_invariant (get_open_orders_go s js).2 := by
  induction js generalizing s with
  | nil => exact hs
  | cons j rest ih =>
    simp only [get_open_orders_go]
    cases hp : parse_order j with
    | none => exact hs
    | some o =>
      have hst : o.status = "open" ∨ o.status = "untriggered" := by
        have := hok j (List.mem_cons_self j rest)
        simp only [order_state_ok, hp, Bool.or_eq_true, beq_iff_eq] at this
        exact this
      exact ih (open_orders_invariant_insert hs hst)
        (fun j' hj' => hok j' (List.mem_cons_of_mem j hj'))

theorem open_orders_invariant_step {s : OpenOrders} {op : OmOp}
    (hs : open_orders_invariant s) (hok : omOpOk op = true) :
    open_orders_invariant (omStep s op) := by
  cases op with
  | place instrument ty dir amount price tif resp =>
    simp only [omStep, place_order]
    split_ifs with h1 h2 h3 h4
    · exact hs
    · exact hs
    · exact hs
    · cases (((resp.data.get "result").get "order").get "order_id").asStr? with
      | none => exact hs
      | some oid =>
        cases (((resp.data.get "result").get "order").get "creation_timestamp").asStr? with
        | none => exact hs
        | some created => exact open_orders_invariant_insert hs (Or.inl rfl)
    · exact hs
  | cancel order_id resp =>
    simp only [omStep, cancel_order]
    split_ifs with h1 h2
    · exact hs
    · exact open_orders_invariant_erase hs
    · exact hs
  | modify order_id amount price now_ms resp =>
    simp only [omStep, modify_order]
    split
    · exact hs
    · split
      · exact hs
      · split
        · cases ho : s order_id with
          | none => exact hs
          | some o => exact open_orders_invariant_insert hs (hs order_id o ho)
        · exact hs
  | getOpen resp =>
    simp only [omStep, get_open_orders]
    split_ifs with h1
    · simp only [omOpOk, h1, Bool.not_true, Bool.false_or, List.all_eq_true] at hok
      exact open_orders_invariant_getOpen_go hs hok
    · exact hs
  | getOrder order_id resp =>
    simp only [omStep, get_order]
    split
    · exact hs
    · split
      · exact hs
      · split
        · split
          · split
            · next h3 => exact open_orders_invariant_insert hs (Or.inl h3)
            · exact hs
          · exact hs
        · exact hs
  | update push =>
    simp only [omStep, handle_order_update]
    cases (push.get "order_id").asStr? with
    | none => exact hs
    | some order_id =>
      cases (push.get "order_state").asStr? with
      | none => exact hs
      | some status =>
        simp only
        split_ifs with h1
        · cases hp : parse_order_update push order_id status with
          | none => exact hs
          | some o =>
            exact open_orders_invariant_insert hs
              ((parse_order_update_status hp) ▸ h1)
        · exact open_orders_invariant_erase hs

theorem open_orders_invariant_foldl (ops : List OmOp) (s : OpenOrders)
    (hs : open_orders_invariant s) (hok : ∀ op ∈ ops, omOpOk op = true) :
    open_orders_invariant (ops.foldl omStep s) := by
  induction ops generalizing s with
  | nil => exact hs
  | cons op rest ih =>
    exact ih _ (open_orders_invariant_step hs (hok op (List.mem_cons_self op rest)))
      (fun op' h' => hok op' (List.mem_cons_of_mem op h'))

theorem open_orders_invariant_empty : open_orders_invariant MapS.empty := by
  intro id o h
  simp [MapS.empty] at h

/-! ### Claim C1 -/

/-- A venue reply to private/get_open_orders_by_currency carrying one
order whose order_state is "filled". -/
def filledOrdersResp : ApiResponse :=
  { success := true,
    data := Json.obj [("result", Json.arr [Json.obj
      [("order_id", Json.str "ord1"),
       ("instrument_name", Json.str "BTC-PERPETUAL"),
       ("order_type", Json.str "limit"),
       ("direction", Json.str "buy"),
       ("price", Json.num 10000),
       ("amount", Json.num 1),
       ("time_in_force", Json.str "good_til_cancelled"),
       ("order_state", Json.str "filled"),
       ("creation_timestamp", Json.str "1"),
       ("last_update_timestamp", Json.str "2")]])] }

/-- The same reply with order_state "open". -/
def openOrdersResp : ApiResponse :=
  { success := true,
    data := Json.obj [("result", Json.arr [Json.obj
      [("order_id", Json.str "ord1"),
       ("instrument_name", Json.str "BTC-PERPETUAL"),
       ("order_type", Json.str "limit"),
       ("direction", Json.str "buy"),
       ("price", Json.num 10000),
       ("amount", Json.num 1),
       ("time_in_force", Json.str "good_til_cancelled"),
       ("order_state", Json.str "open"),
       ("creation_timestamp", Json.str "1"),
       ("last_update_timestamp", Json.str "2")]])] }

/-- C1, counterexample to the claim as stated: a single get_open_orders
call whose (successful) venue reply carries an order with state "filled"
leaves that order in the open-orders cache with status "filled", because
OrderManager::get_open_orders writes every returned order back without
filtering by status. -/
theorem c1_claim_counterexample :
    ¬ open_orders_invariant (omRun [OmOp.getOpen filledOrdersResp]) := by
  intro h
  rcases h "ord1" _ rfl with h2 | h2 <;> exact absurd h2 (by decide)

/-- C1 (amended): after any sequence of OrderManager operations in which
every successful get_open_orders reply only carries orders whose
order_state is "open" or "untriggered" (which is what the venue promises
for private/get_open_orders_by_currency), every order in the open-orders
cache has recorded status "open" or "untriggered". -/
theorem c1_open_orders_status_invariant (ops : List OmOp)
    (hok : ops.all omOpOk = true) : open_orders_invariant (omRun ops) := by
  rw [List.all_eq_true] at hok
  exact open_orders_invariant_foldl ops MapS.empty open_orders_invariant_empty hok

/-- Witness for C1 at a concrete operation sequence. -/
theorem c1_open_orders_status_invariant_witness :
    [OmOp.getOpen openOrdersResp, OmOp.cancel "ord1" { success := true }].all
        omOpOk = true ∧
      open_orders_invariant
        (omRun [OmOp.getOpen openOrdersResp, OmOp.cancel "ord1" { success := true }]) :=
  ⟨rfl, c1_open_orders_status_invariant _ rfl⟩

/-! ### Claim C2 -/

/-- C2 (amended): place_order returns the empty id, does not throw, and
leaves the open-orders cache unchanged whenever the instrument is empty,
the amount is non-positive, or the type is LIMIT with a non-positive
price.  (The claim as stated also covers STOP_LIMIT with non-positive
price, but the source validates the price for LIMIT orders only.) -/
theorem c2_place_order_validation (s : OpenOrders) (instrument : String)
    (type : OrderType) (dir : OrderDirection) (amount price : ℚ)
    (tif : TimeInForce) (resp : ApiResponse)
    (h : instrument = "" ∨ amount ≤ 0 ∨ (type = OrderType.LIMIT ∧ price ≤ 0)) :
    place_order s instrument type dir amount price tif resp = ("", s) := by
  unfold place_order
  split_ifs with h1 h2 h3 h4
  · rfl
  · rfl
  · rfl
  · tauto
  · rfl

/-- A successful venue reply to private/buy. -/
def buyOkResp : ApiResponse :=
  { success := true,
    data := Json.obj [("result", Json.obj [("order", Json.obj
      [("order_id", Json.str "ord2"),
       ("creation_timestamp", Json.str "171")])])] }

/-- C2, counterexample to the claim as stated: a STOP_LIMIT order with
price 0 passes validation (the source checks the price only for LIMIT),
so with a successful venue reply place_order returns a non-empty id and
inserts the order into the cache. -/
theorem c2_claim_counterexample :
    (place_order MapS.empty "BTC-PERPETUAL" OrderType.STOP_LIMIT OrderDirection.BUY
        1 0 TimeInForce.GOOD_TIL_CANCELLED buyOkResp).1 ≠ "" ∧
    (place_order MapS.empty "BTC-PERPETUAL" OrderType.STOP_LIMIT OrderDirection.BUY
        1 0 TimeInForce.GOOD_TIL_CANCELLED buyOkResp).2 "ord2" ≠ MapS.empty "ord2" := by
  exact ⟨by decide, by decide⟩

/-- Witness for C2 at a concrete violated precondition. -/
theorem c2_place_order_validation_witness :
    place_order MapS.empty "BTC-PERPETUAL" OrderType.LIMIT OrderDirection.BUY
        1 0 TimeInForce.GOOD_TIL_CANCELLED buyOkResp = ("", MapS.empty) :=
  c2_place_order_validation _ _ _ _ _ _ _ _ (Or.inr (Or.inr ⟨rfl, le_refl 0⟩))

/-! ### Claim C3 -/

/-- The double-index invariant exactly as the claim states it: every live
connection has an entry in the inverse index whose channels all list it
in the forward index, and every connection listed under a channel has
that channel in its inverse entry. -/
def claimed_double_index_invariant (s : WSState) : Prop :=
  (∀ c ∈ s.connections, ∃ t, s.connection_subscriptions c = some t ∧
      ∀ k ∈ t, omem (s.channel_subscriptions k) c) ∧
  (∀ k st, s.channel_subscriptions k = some st →
      ∀ c ∈ st, ∃ t, s.connection_subscriptions c = some t ∧ k ∈ t)

/-- C3, counterexample to the claim as stated: right after on_open the new
connection is in the connections set but the inverse index has no entry
for it (entries are only created by the first subscribe). -/
theorem c3_claim_counterexample :
    ¬ claimed_double_index_invariant (wsRun [WsOp.onOpen 0]) := by
  intro h
  obtain ⟨t, ht, -⟩ := h.1 0 (by simp [wsRun, wsStep, on_open, wsInit])
  simp [wsRun, wsStep, on_open, wsInit] at ht

/-- C3 (amended): in every reachable Broadcast Server state, the two
subscription indices agree at the membership level: a connection is
listed under a channel in the forward index iff that channel is listed
under the connection in the inverse index.  (The claim's stronger
requirement that every live connection own an inverse entry fails: the
entry is created lazily by the first subscribe and dropped when it
empties.) -/
theorem c3_double_index_consistency (ops : List WsOp) (k : String) (h : ℕ) :
    omem ((wsRun ops).channel_subscriptions k) h ↔
      omem ((wsRun ops).connection_subscriptions h) k :=
  (goodState_run ops).1 k h

/-! ### Claim C6 -/

/-- C6, counterexample to the claim as stated: if the peer is already
subscribed to the channel, subscribe followed by unsubscribe removes the
pre-existing subscription instead of restoring the tables. -/
theorem c6_claim_counterexample :
    (unsubscribe_client
        (subscribe_client (wsRun [WsOp.subscribe 0 "a"]) 0 "a").2 0 "a").2.channel_subscriptions "a"
      ≠ (wsRun [WsOp.subscribe 0 "a"]).channel_subscriptions "a" := by
  decide

/-- C6 (amended): in every reachable subscription-table state (the
GoodState invariant holds for all of them) in which the peer is not yet
subscribed to the channel, subscribe_client followed by
unsubscribe_client on the same peer and channel restores both indices
exactly. -/
theorem c6_subscribe_unsubscribe_roundtrip (s : WSState) (hdl : ℕ)
    (channel : String) (hgood : GoodState s)
    (hnot : ¬ omem (s.channel_subscriptions channel) hdl) :
    (unsubscribe_client (subscribe_client s hdl channel).2 hdl channel).2.channel_subscriptions
        = s.channel_subscriptions ∧
    (unsubscribe_client (subscribe_client s hdl channel).2 hdl channel).2.connection_subscriptions
        = s.connection_subscriptions := by
  obtain ⟨hC, ⟨hF, hG⟩⟩ := hgood
  have hnotg : ¬ omem (s.connection_subscriptions hdl) channel :=
    fun hm => hnot ((hC channel hdl).2 hm)
  rw [omem_iff_mem_getD] at hnot hnotg
  constructor
  · funext k
    by_cases hk : k = channel
    · subst hk
      have h1 : (subscribe_client s hdl k).2.channel_subscriptions k
          = some (insert hdl ((s.channel_subscriptions k).getD ∅)) := by
        simp [subscribe_client]
      simp only [unsubscribe_client, eq_self_iff_true, if_true, h1]
      simp only [Finset.erase_insert hnot]
      cases hf : s.channel_subscriptions k with
      | none => simp
      | some t =>
        have ht : t ≠ ∅ := fun he => hF k (by rw [hf, he])
        simp [ht]
    · simp only [unsubscribe_client, subscribe_client, if_neg hk]
  · funext c
    by_cases hc : c = hdl
    · subst hc
      have h1 : (subscribe_client s c channel).2.connection_subscriptions c
          = some (insert channel ((s.connection_subscriptions c).getD ∅)) := by
        simp [subscribe_client]
      simp only [unsubscribe_client, eq_self_iff_true, if_true, h1]
      simp only [Finset.erase_insert hnotg]
      cases hg : s.connection_subscriptions c with
      | none => simp
      | some t =>
        have ht : t ≠ ∅ := fun he => hG c (by rw [hg, he])
        simp [ht]
    · simp only [unsubscribe_client, subscribe_client, if_neg hc]

/-- Witness for C6 at the initial state. -/
theorem c6_subscribe_unsubscribe_roundtrip_witness :
    (unsubscribe_client (subscribe_client wsInit 0 "a").2 0 "a").2.channel_subscriptions
        = wsInit.channel_subscriptions ∧
    (unsubscribe_client (subscribe_client wsInit 0 "a").2 0 "a").2.connection_subscriptions
        = wsInit.connection_subscriptions :=
  c6_subscribe_unsubscribe_roundtrip wsInit 0 "a" goodState_init
    (by simp [wsInit, omem])

/-! ### Claim C10 -/

/-- C10: an unsubscribe request for a channel the peer never subscribed
to still gets the unsubscribed success reply (unsubscribe_client returns
true unconditionally) and leaves the whole server state, in particular
both subscription indices, unchanged. -/
theorem c10_unsubscribe_unknown_channel (s : WSState) (hdl : ℕ)
    (channel : String) (hgood : GoodState s)
    (hnot : ¬ omem (s.channel_subscriptions channel) hdl) :
    handle_unsubscribe_request s hdl channel
      = (s, [(hdl, Frame.unsubscribed channel)]) := by
  obtain ⟨hC, ⟨hF, hG⟩⟩ := hgood
  have hnotg : ¬ omem (s.connection_subscriptions hdl) channel :=
    fun hm => hnot ((hC channel hdl).2 hm)
  rw [omem_iff_mem_getD] at hnot hnotg
  have hfcomp : (unsubscribe_client s hdl channel).2.channel_subscriptions
      = s.channel_subscriptions := by
    funext k
    simp only [unsubscribe_client]
    by_cases hk : k = channel
    · subst hk
      rw [if_pos rfl]
      cases hf : s.channel_subscriptions k with
      | none => rfl
      | some t =>
        have ht : t ≠ ∅ := fun he => hF k (by rw [hf, he])
        rw [hf] at hnot
        simp only [Option.getD_some] at hnot
        simp [Finset.erase_eq_of_not_mem hnot, ht]
    · rw [if_neg hk]
  have hgcomp : (unsubscribe_client s hdl channel).2.connection_subscriptions
      = s.connection_subscriptions := by
    funext c
    simp only [unsubscribe_client]
    by_cases hc : c = hdl
    · subst hc
      rw [if_pos rfl]
      cases hg : s.connection_subscriptions c with
      | none => rfl
      | some t =>
        have ht : t ≠ ∅ := fun he => hG c (by rw [hg, he])
        rw [hg] at hnotg
        simp only [Option.getD_some] at hnotg
        simp [Finset.erase_eq_of_not_mem hnotg, ht]
    · rw [if_neg hc]
  have hstate : (unsubscribe_client s hdl channel).2 = s := by
    have hview : (unsubscribe_client s hdl channel).2
        = { s with
            channel_subscriptions :=
              (unsubscribe_client s hdl channel).2.channel_subscriptions,
            connection_subscriptions :=
              (unsubscribe_client s hdl channel).2.connection_subscriptions } := rfl
    rw [hview, hfcomp, hgcomp]
  have hred : handle_unsubscribe_request s hdl channel
      = ((unsubscribe_client s hdl channel).2, [(hdl, Frame.unsubscribed channel)]) := rfl
  rw [hred, hstate]

/-- Witness for C10 at the initial state. -/
theorem c10_unsubscribe_unknown_channel_witness :
    handle_unsubscribe_request wsInit 0 "a"
      = (wsInit, [(0, Frame.unsubscribed "a")]) :=
  c10_unsubscribe_unknown_channel wsInit 0 "a" goodState_init
    (by simp [wsInit, omem])

/-! ### Claim C7 -/

theorem string_take_append_drop (s : String) (n : ℕ) :
    s.take n ++ s.drop n = s := by
  cases s with
  | mk data =>
    rw [String.take_eq, String.drop_eq]
    show String.mk (data.take n ++ data.drop n) = String.mk data
    rw [List.take_append_drop]

/-- C7: for an inbound subscribe request whose channel begins with
"orderbook.", the subscribed reply to that peer is the first frame sent,
and the initial orderbook snapshot for the trailing instrument is sent to
that same peer afterwards. -/
theorem c7_subscribed_reply_before_snapshot (s : WSState) (books : Books)
    (hdl : ℕ) (channel : String) (resp : ApiResponse)
    (hob : channel.take 10 = "orderbook.") :
    ∃ rest book,
      (handle_subscribe_request s books hdl channel resp).2.2
          = (hdl, Frame.subscribed channel) :: rest ∧
      (hdl, Frame.orderbook (channel.drop 10) book) ∈ rest := by
  have hcat : "orderbook." ++ channel.drop 10 = channel := by
    conv_rhs => rw [← string_take_append_drop channel 10]
    rw [hob]
  have hsub : (subscribe_client s hdl channel).2.channel_subscriptions channel
      = some (insert hdl ((s.channel_subscriptions channel).getD ∅)) := by
    simp [subscribe_client]
  unfold handle_subscribe_request
  rw [if_pos hob]
  refine ⟨_, (get_orderbook books (channel.drop 10) 10 resp).1, rfl, ?_⟩
  unfold ws_handle_orderbook_update broadcast_to_channel
  rw [hcat, hsub]
  exact List.mem_map.2 ⟨hdl, by simp, rfl⟩

/-- Witness for C7 at a concrete orderbook channel. -/
theorem c7_subscribed_reply_before_snapshot_witness :
    ∃ rest book,
      (handle_subscribe_request wsInit MapS.empty 0 "orderbook.BTC-PERPETUAL"
          { success := false }).2.2
          = (0, Frame.subscribed "orderbook.BTC-PERPETUAL") :: rest ∧
      (0, Frame.orderbook ("orderbook.BTC-PERPETUAL".drop 10) book) ∈ rest :=
  c7_subscribed_reply_before_snapshot wsInit MapS.empty 0 "orderbook.BTC-PERPETUAL"
    { success := false } (by decide)

/-! ### Claim C4 -/

/-- C4: private_request when not authenticated fails with "Not
authenticated" and contacts nothing; when the token is expired it
refreshes first, a failed refresh flips authenticated off and returns a
failure after only the refresh call; with a valid token (or after a
successful refresh) it performs the public_request with access_token
added to the params. -/
theorem c4_private_request_token_lifecycle (st : ApiClientState) (now : ℤ)
    (method : String) (params : Json) (refresh_resp main_resp : ApiResponse) :
    (st.authenticated = false →
      private_request st now method params refresh_resp main_resp
        = ({ success := false, error_message := "Not authenticated" }, st, [])) ∧
    (st.authenticated = true → st.token_expiry ≤ now → refresh_resp.success = false →
      private_request st now method params refresh_resp main_resp
        = ({ success := false, error_message := "Failed to refresh token" },
           { st with authenticated := false },
           [{ method := "public/auth",
              params := Json.obj [("grant_type", Json.str "refresh_token"),
                                  ("refresh_token", Json.str st.refresh_token_value)] }])) ∧
    (st.authenticated = true → now < st.token_expiry →
      private_request st now method params refresh_resp main_resp
        = (main_resp, st,
           [{ method := method,
              params := params.setField "access_token" (Json.str st.access_token) }])) ∧
    (∀ a r e, st.authenticated = true → st.token_expiry ≤ now →
      refresh_resp.success = true →
      ((refresh_resp.data.get "result").get "access_token").asStr? = some a →
      ((refresh_resp.data.get "result").get "refresh_token").asStr? = some r →
      ((refresh_resp.data.get "result").get "expires_in").asInt? = some e →
      private_request st now method params refresh_resp main_resp
        = (main_resp,
           { st with access_token := a, refresh_token_value := r,
                     token_expiry := now + e },
           [{ method := "public/auth",
              params := Json.obj [("grant_type", Json.str "refresh_token"),
                                  ("refresh_token", Json.str st.refresh_token_value)] },
            { method := method,
              params := params.setField "access_token" (Json.str a) }])) := by
  refine ⟨fun h1 => ?_, fun h1 h2 h3 => ?_, fun h1 h2 => ?_,
    fun a r e h1 h2 h3 ha hr he => ?_⟩
  · simp [private_request, h1]
  · simp [private_request, refresh_token, h1, h2, h3]
  · have h2' : ¬ st.token_expiry ≤ now := not_le.2 h2
    simp [private_request, h1, h2']
  · simp [private_request, refresh_token, h1, h2, h3, ha, hr, he]

/-- A concrete authenticated client state. -/
def stAuth : ApiClientState :=
  { authenticated := true, access_token := "tok",
    refresh_token_value := "ref", token_expiry := 5 }

/-- Witness for C4: a valid-token private request at a concrete state. -/
theorem c4_private_request_token_lifecycle_witness :
    private_request stAuth 3 "private/get_order_state"
        (Json.obj [("order_id", Json.str "x")]) { success := false } { success := true }
      = ({ success := true }, stAuth,
         [{ method := "private/get_order_state",
            params := (Json.obj [("order_id", Json.str "x")]).setField
              "access_token" (Json.str stAuth.access_token) }]) :=
  (c4_private_request_token_lifecycle stAuth 3 "private/get_order_state"
      (Json.obj [("order_id", Json.str "x")]) { success := false }
      { success := true }).2.2.1 rfl (by norm_num [stAuth])

/-! ### Claims C5 and C9 -/

theorem get_orderbook_miss_calls (books : Books) (instrument : String)
    (depth : ℤ) (resp : ApiResponse) (hinst : instrument ≠ "")
    (hdepth : 0 < depth) (hmiss : books instrument = none) :
    (get_orderbook books instrument depth resp).2.2 = 1 := by
  have hd : ¬ depth ≤ 0 := not_le.2 hdepth
  simp only [get_orderbook, if_neg hinst, if_neg hd, hmiss]
  split
  · split
    · rfl
    · split
      · split
        · rfl
        · rfl
      · rfl
  · rfl

/-- C5: get_orderbook is read-through.  A cache hit returns the cached
book unchanged with no upstream call; a cache miss performs exactly one
upstream call, stores the parsed book on a successful reply, and the
following call for the same instrument returns the cached book with no
upstream call. -/
theorem c5_get_orderbook_read_through (books : Books) (instrument : String)
    (depth : ℤ) (resp resp2 : ApiResponse) (ts : String)
    (bids asks : List (ℚ × ℚ)) (hinst : instrument ≠ "") (hdepth : 0 < depth) :
    (∀ ob, books instrument = some ob →
        get_orderbook books instrument depth resp = (ob, books, 0)) ∧
    (books instrument = none →
        (get_orderbook books instrument depth resp).2.2 = 1) ∧
    (books instrument = none → resp.success = true →
      ((resp.data.get "result").get "timestamp").asStr? = some ts →
      parse_pairs ((resp.data.get "result").get "bids").iterList = (bids, true) →
      parse_pairs ((resp.data.get "result").get "asks").iterList = (asks, true) →
      get_orderbook books instrument depth resp
          = ({ instrument_name := instrument, bids := bids, asks := asks,
               timestamp := ts },
             books.insert instrument
               { instrument_name := instrument, bids := bids, asks := asks,
                 timestamp := ts }, 1) ∧
      get_orderbook
          (books.insert instrument
            { instrument_name := instrument, bids := bids, asks := asks,
              timestamp := ts }) instrument depth resp2
          = ({ instrument_name := instrument, bids := bids, asks := asks,
               timestamp := ts },
             books.insert instrument
               { instrument_name := instrument, bids := bids, asks := asks,
                 timestamp := ts }, 0)) := by
  have hd : ¬ depth ≤ 0 := not_le.2 hdepth
  refine ⟨fun ob hob => ?_, fun hmiss => get_orderbook_miss_calls books instrument
    depth resp hinst hdepth hmiss, fun hmiss hsucc hts hb ha => ⟨?_, ?_⟩⟩
  · simp [get_orderbook, if_neg hinst, if_neg hd, hob]
  · simp [get_orderbook, if_neg hinst, if_neg hd, hmiss, hsucc, hts, hb, ha]
  · simp [get_orderbook, if_neg hinst, if_neg hd, MapS.insert]

/-- Witness for C5 at a concrete instrument, cache and reply. -/
theorem c5_get_orderbook_read_through_witness :
    get_orderbook MapS.empty "BTC-PERPETUAL" 10
        { success := true,
          data := Json.obj [("result", Json.obj
            [("timestamp", Json.str "7"),
             ("bids", Json.arr [Json.arr [Json.num 100, Json.num 1]]),
             ("asks", Json.arr [Json.arr [Json.num 101, Json.num 2]])])] }
      = ({ instrument_name := "BTC-PERPETUAL", bids := [(100, 1)],
           asks := [(101, 2)], timestamp := "7" },
         MapS.insert MapS.empty "BTC-PERPETUAL"
           { instrument_name := "BTC-PERPETUAL", bids := [(100, 1)],
             asks := [(101, 2)], timestamp := "7" }, 1) :=
  ((c5_get_orderbook_read_through MapS.empty "BTC-PERPETUAL" 10
      { success := true,
        data := Json.obj [("result", Json.obj
          [("timestamp", Json.str "7"),
           ("bids", Json.arr [Json.arr [Json.num 100, Json.num 1]]),
           ("asks", Json.arr [Json.arr [Json.num 101, Json.num 2]])])] }
      { success := false } "7" [(100, 1)] [(101, 2)]
      (by decide) (by norm_num)).2.2 rfl rfl rfl (by decide) (by decide)).1

/-- C9: on a failed upstream reply, get_orderbook returns a book whose
instrument_name is the requested instrument with empty bids, asks and
timestamp, performs the single upstream call, and stores nothing, so a
subsequent call for the same instrument performs the upstream call
again. -/
theorem c9_get_orderbook_upstream_failure (books : Books) (instrument : String)
    (depth : ℤ) (resp resp2 : ApiResponse) (hinst : instrument ≠ "")
    (hdepth : 0 < depth) (hmiss : books instrument = none)
    (hfail : resp.success = false) :
    get_orderbook books instrument depth resp
        = ({ instrument_name := instrument, bids := [], asks := [],
             timestamp := "" }, books, 1) ∧
    (get_orderbook books instrument depth resp2).2.2 = 1 := by
  have hd : ¬ depth ≤ 0 := not_le.2 hdepth
  exact ⟨by simp [get_orderbook, if_neg hinst, if_neg hd, hmiss, hfail],
    get_orderbook_miss_calls books instrument depth resp2 hinst hdepth hmiss⟩

/-- Witness for C9 at a concrete failed reply. -/
theorem c9_get_orderbook_upstream_failure_witness :
    get_orderbook MapS.empty "BTC-PERPETUAL" 10
        { success := false, error_message := "venue down" }
        = ({ instrument_name := "BTC-PERPETUAL", bids := [], asks := [],
             timestamp := "" }, MapS.empty, 1) ∧
    (get_orderbook MapS.empty "BTC-PERPETUAL" 10
        { success := false, error_message := "venue down" }).2.2 = 1 :=
  c9_get_orderbook_upstream_failure MapS.empty "BTC-PERPETUAL" 10
    { success := false, error_message := "venue down" }
    { success := false, error_message := "venue down" }
    (by decide) (by norm_num) rfl rfl

/-! ### Claim C8 -/

theorem percentile_interp (samples : List ℤ) (p : ℚ) (hp0 : 0 ≤ p)
    (hne : samples ≠ []) :
    percentile_latency_ns samples p =
      ((samples.insertionSort (· ≤ ·)).getD
          (⌊p * ((samples.length : ℚ) - 1) / 100⌋).toNat 0 : ℚ) *
        (1 - (p * ((samples.length : ℚ) - 1) / 100
              - ((⌊p * ((samples.length : ℚ) - 1) / 100⌋ : ℤ) : ℚ)))
      + ((samples.insertionSort (· ≤ ·)).getD
          (⌈p * ((samples.length : ℚ) - 1) / 100⌉).toNat 0 : ℚ) *
        (p * ((samples.length : ℚ) - 1) / 100
              - ((⌊p * ((samples.length : ℚ) - 1) / 100⌋ : ℤ) : ℚ)) := by
  have hlen : 0 < samples.length := List.length_pos.2 hne
  have hn1 : (0 : ℚ) ≤ (samples.length : ℚ) - 1 := by
    have h1 : (1 : ℚ) ≤ (samples.length : ℚ) := by exact_mod_cast hlen
    linarith
  have hi0 : 0 ≤ p * ((samples.length : ℚ) - 1) / 100 :=
    div_nonneg (mul_nonneg hp0 hn1) (by norm_num)
  have hfl0 : (0 : ℤ) ≤ ⌊p * ((samples.length : ℚ) - 1) / 100⌋ :=
    Int.floor_nonneg.2 hi0
  have hcl0 : (0 : ℤ) ≤ ⌈p * ((samples.length : ℚ) - 1) / 100⌉ :=
    le_trans hfl0 (Int.floor_le_ceil _)
  have hfl : ((⌊p * ((samples.length : ℚ) - 1) / 100⌋.toNat : ℕ) : ℚ)
      = ((⌊p * ((samples.length : ℚ) - 1) / 100⌋ : ℤ) : ℚ) := by
    exact_mod_cast Int.toNat_of_nonneg hfl0
  unfold percentile_latency_ns
  rw [if_neg hne]
  simp only [List.length_insertionSort]
  split_ifs with hlu
  · have hfc : ⌊p * ((samples.length : ℚ) - 1) / 100⌋
        = ⌈p * ((samples.length : ℚ) - 1) / 100⌉ := by omega
    have hieq : p * ((samples.length : ℚ) - 1) / 100
        = ((⌊p * ((samples.length : ℚ) - 1) / 100⌋ : ℤ) : ℚ) := by
      refine le_antisymm ?_ (Int.floor_le _)
      calc p * ((samples.length : ℚ) - 1) / 100
          ≤ ((⌈p * ((samples.length : ℚ) - 1) / 100⌉ : ℤ) : ℚ) := Int.le_ceil _
        _ = ((⌊p * ((samples.length : ℚ) - 1) / 100⌋ : ℤ) : ℚ) := by
            exact_mod_cast congrArg (fun z : ℤ => (z : ℚ)) hfc.symm
    have hw : p * ((samples.length : ℚ) - 1) / 100
        - ((⌊p * ((samples.length : ℚ) - 1) / 100⌋ : ℤ) : ℚ) = 0 :=
      sub_eq_zero.2 hieq
    rw [hw, ← hlu]
    ring
  · rw [hfl]

/-- C8: a percentile query on an empty sample buffer returns 0; on a
non-empty buffer it returns the linear interpolation between the two
sorted samples neighbouring the fractional index percentile*(n-1)/100 of
a sorted copy of the buffer; and the CSV export writes N/A for the three
percentile columns exactly when the sample buffer is empty. -/
theorem c8_percentile_and_csv (samples : List ℤ) (p : ℚ) (m : LatencyMetric)
    (hp0 : 0 ≤ p) (hp1 : p ≤ 100) :
    (samples = [] → percentile_latency_ns samples p = 0) ∧
    (samples ≠ [] →
      (samples.insertionSort (· ≤ ·)).Perm samples ∧
      List.Sorted (· ≤ ·) (samples.insertionSort (· ≤ ·)) ∧
      percentile_latency_ns samples p =
        ((samples.insertionSort (· ≤ ·)).getD
            (⌊p * ((samples.length : ℚ) - 1) / 100⌋).toNat 0 : ℚ) *
          (1 - (p * ((samples.length : ℚ) - 1) / 100
                - ((⌊p * ((samples.length : ℚ) - 1) / 100⌋ : ℤ) : ℚ)))
        + ((samples.insertionSort (· ≤ ·)).getD
            (⌈p * ((samples.length : ℚ) - 1) / 100⌉).toNat 0 : ℚ) *
          (p * ((samples.length : ℚ) - 1) / 100
                - ((⌊p * ((samples.length : ℚ) - 1) / 100⌋ : ℤ) : ℚ))) ∧
    (csv_percentile_cells m = [CsvCell.na, CsvCell.na, CsvCell.na] ↔
      m.samples = []) := by
  refine ⟨fun h => by simp [percentile_latency_ns, h],
    fun hne => ⟨List.perm_insertionSort _ _, List.sorted_insertionSort _ _,
      percentile_interp samples p hp0 hne⟩, ?_, ?_⟩
  · intro h
    by_contra hne
    simp [csv_percentile_cells, hne] at h
  · intro h
    simp [csv_percentile_cells, h]

/-- A tracker metric with sample storage disabled (empty buffer). -/
def emptyMetric : LatencyMetric :=
  { name := "t", min_latency := 0, max_latency := 0, total_latency := 0,
    count := 0, samples := [], store_samples := false, max_samples := 1000 }

/-- Witness for C8 at concrete buffers: the empty buffer yields 0 and
N/A cells; the buffer [3, 1, 2] yields median 2. -/
theorem c8_percentile_and_csv_witness :
    percentile_latency_ns [] 50 = 0 ∧
    percentile_latency_ns [3, 1, 2] 50 = 2 ∧
    csv_percentile_cells emptyMetric = [CsvCell.na, CsvCell.na, CsvCell.na] := by
  refine ⟨(c8_percentile_and_csv [] 50 emptyMetric (by norm_num) (by norm_num)).1 rfl,
    ?_, ?_⟩
  · have h := ((c8_percentile_and_csv [3, 1, 2] 50 emptyMetric (by norm_num)
      (by norm_num)).2.1 (by simp)).2.2
    rw [h]
    norm_num [List.insertionSort, List.orderedInsert, List.getD_cons_succ,
      List.getD_cons_zero]
  · exact (c8_percentile_and_csv [] 50 emptyMetric (by norm_num)
      (by norm_num)).2.2.2 rfl

end Deribit
